import Mathlib

/-!
Verification of the transcription job-queue core of Recipe_AI.

This file shallowly embeds the pure decision logic of:
* `workers/transcriber/main.py` (the transcriber worker), and
* `src/app/infra/db/supabase_jobs_repo.py` (the job-queue and quota
  repositories over the Supabase store),
together with the data model of `src/app/domain/models.py`.

Store rows are modelled as explicit records; each repository method that
sends an `update(...)` dictionary to the store is modelled as the function
from the current row to the row with exactly those columns overwritten.
Timestamps are abstract integers counted in minutes (the back-off unit used
by the source); media durations and progress values are exact rationals
standing for the source's floats.
-/

/-! ### Python numeric helpers -/

/-- Python `int(x)` applied to a (non-complex) number: truncation toward zero. -/
def pyInt (q : ℚ) : ℤ := if 0 ≤ q then ⌊q⌋ else ⌈q⌉

/-! ### Worker constants (`workers/transcriber/main.py`, lines 38-42) -/

/-- `DEFAULT_ESTIMATED_MINUTES = 5`. -/
def DEFAULT_ESTIMATED_MINUTES : ℤ := 5

/-- `BYTES_PER_MB = 1024 * 1024`. -/
def BYTES_PER_MB : ℤ := 1024 * 1024

/-! ### Object-key validation (`TranscriberWorker._validate_object_key`)

`_validate_object_key` inspects `PurePosixPath(object_key).name`.  Per the
`pathlib` documentation, parsing a POSIX path collapses spurious slashes and
single-dot components while keeping `..` components, and `name` is the final
remaining component (empty when none remains).  We model the key as its list
of characters. -/

/-- Split a character list on `'/'`, keeping empty components, exactly like
Python's `"…".split("/")`. -/
def splitOnSlash : List Char → List (List Char)
  | [] => [[]]
  | c :: rest =>
    let groups := splitOnSlash rest
    if c = '/' then [] :: groups
    else
      match groups with
      | g :: gs => (c :: g) :: gs
      | [] => [[c]]

/-- `PurePosixPath(key).name`: drop empty and `"."` components, then take the
last component; `[]` when no component remains. -/
def posixPathName (key : List Char) : List Char :=
  ((((splitOnSlash key).filter (fun comp => !comp.isEmpty && comp != ['.'])).getLast?).getD [])

/-- Python's `".." in object_key`: the two-character substring `..` occurs. -/
def hasDotDot : List Char → Bool
  | '.' :: '.' :: _ => true
  | _ :: rest => hasDotDot rest
  | [] => false

/-- Outcome of `_validate_object_key`: the key is returned, or
`InvalidObjectKeyError(key, reason)` is raised. -/
inductive KeyValidation where
  | accepted (key : String)
  | rejected (reason : String)
deriving DecidableEq

/-- Whether validation accepted the key. -/
def KeyValidation.isAccepted : KeyValidation → Bool
  | .accepted _ => true
  | .rejected _ => false

/-- `TranscriberWorker._validate_object_key` (main.py lines 292-307):
reject empty / whitespace-only keys, keys whose final path component is
empty or starts with `.`, and keys containing `..`; otherwise return the
key unchanged.  The source performs no check that the key begins with a
`users/{user_id}/` prefix. -/
def validate_object_key (object_key : String) : KeyValidation :=
  if object_key.data.all (fun c => c.isWhitespace) then
    KeyValidation.rejected "Object key cannot be empty"
  else
    let safe_name := posixPathName object_key.data
    if safe_name.isEmpty then
      KeyValidation.rejected "Object key has no valid filename"
    else if safe_name.head? = some '.' then
      KeyValidation.rejected "Object key cannot start with dot"
    else if hasDotDot object_key.data then
      KeyValidation.rejected "Object key cannot contain path traversal"
    else
      KeyValidation.accepted object_key

/-! ### Per-job error dispatch (`TranscriberWorker._process_job`)

`_process_job` (main.py lines 228-269) wraps one attempt in a `try` block
with exactly four `except` clauses: `InvalidMediaError`,
`TranscriptionProcessingError` (whose `retryable` flag picks the handler),
`(StorageDownloadError, StorageTimeoutError)`, and `InvalidObjectKeyError`.
There is no catch-all clause, so an exception of any other class propagates
out of `_process_job`.  The handlers (lines 397-421) each perform exactly
one `mark_failed` call. -/

/-- The ways a processing attempt can terminate: successfully, with one of
the exception classes `_process_job` names, or with an exception of any
other class (`unexpected`). -/
inductive AttemptOutcome where
  | success
  | invalidMedia (message : String)
  | processing (message : String) (retryable : Bool)
  | storageDownload (message : String)
  | storageTimeout (message : String)
  | invalidObjectKey (message : String)
  | unexpected (message : String)
deriving DecidableEq

/-- What `_process_job` does with the attempt outcome: finish normally,
issue exactly one `mark_failed(permanent, message)`, or let the exception
escape the per-job block. -/
inductive JobOutcomeAct where
  | completed
  | markFailed (permanent : Bool) (message : String)
  | escaped (message : String)
deriving DecidableEq

/-- The `try`/`except` dispatch of `_process_job` composed with the
`_handle_permanent_failure` / `_handle_processing_error` /
`_handle_retryable_failure` handlers. -/
def process_job_dispatch : AttemptOutcome → JobOutcomeAct
  | .success => .completed
  | .invalidMedia m => .markFailed true m
  | .processing m r => if r then .markFailed false m else .markFailed true m
  | .storageDownload m => .markFailed false m
  | .storageTimeout m => .markFailed false m
  | .invalidObjectKey m => .markFailed true m
  | .unexpected m => .escaped m

/-! ### Quota reconciliation (`TranscriberWorker._reconcile_quota`) -/

/-- `actual_minutes = int(actual_duration_sec / 60) + 1`
(main.py line 390). -/
def reconcile_actual_minutes (actual_duration_sec : ℚ) : ℤ :=
  pyInt (actual_duration_sec / 60) + 1

/-! ### Duration estimation (`_estimate_duration_minutes` and
`_determine_total_duration_seconds`) -/

/-- Result of `self.storage.get_object_metadata(object_key)` as consumed by
`_estimate_duration_minutes`: either a content length in bytes (after the
source's `metadata.get("content_length", 0) or 0` normalisation), or one of
the exceptions the method catches (`StorageDownloadError`,
`StorageTimeoutError`, `KeyError`, `TypeError`). -/
inductive MetadataFetch where
  | ok (content_length : ℤ)
  | err
deriving DecidableEq

/-- `TranscriberWorker._estimate_duration_minutes` (main.py lines 322-329):
`max(1, int(content_length / BYTES_PER_MB))` on success, the default of
5 minutes on any caught exception.  This value is the `estimated_minutes`
that `_process_job` (line 236) later passes to `_reconcile_quota`
(line 253); it never consults the job's `estimated_duration_sec` nor any
probed media duration. -/
def estimate_duration_minutes : MetadataFetch → ℤ
  | .ok content_length => max 1 (pyInt ((content_length : ℚ) / (BYTES_PER_MB : ℚ)))
  | .err => DEFAULT_ESTIMATED_MINUTES

/-- The fallback chain of `_determine_total_duration_seconds` after the
job's stored estimate is ruled out: a probed duration that is truthy
(non-zero) wins, otherwise `max(estimated_minutes, 1) * 60`. -/
def determine_fallback_seconds (probed : Option ℚ) (estimated_minutes : ℤ) : ℚ :=
  match probed with
  | some d => if d ≠ 0 then d else ((max estimated_minutes 1 * 60 : ℤ) : ℚ)
  | none => ((max estimated_minutes 1 * 60 : ℤ) : ℚ)

/-- `TranscriberWorker._determine_total_duration_seconds` (main.py lines
489-502): the job's `estimated_duration_sec` when truthy and positive, else
the probed duration when truthy, else `max(estimated_minutes, 1) * 60`.
The result only feeds the progress reporter's total. -/
def determine_total_duration_seconds (estimated_duration_sec : Option ℤ)
    (probed : Option ℚ) (estimated_minutes : ℤ) : ℚ :=
  match estimated_duration_sec with
  | some e => if 0 < e then (e : ℚ) else determine_fallback_seconds probed estimated_minutes
  | none => determine_fallback_seconds probed estimated_minutes

/-- Modelled from the spec (claim C8's words), for comparison with the
source: the estimation chain "non-zero stored `estimated_duration_sec`,
else the probed media duration, else 1 minute per MB of content length,
else default 5 minutes", expressed in seconds — fallback part. -/
def claimed_chain_fallback (probed : Option ℚ) (meta : MetadataFetch) : ℚ :=
  match probed with
  | some d => d
  | none =>
    match meta with
    | .ok cl => ((max 1 (pyInt ((cl : ℚ) / (BYTES_PER_MB : ℚ))) * 60 : ℤ) : ℚ)
    | .err => ((DEFAULT_ESTIMATED_MINUTES * 60 : ℤ) : ℚ)

/-- Modelled from the spec (claim C8's words), for comparison with the
source: the full claimed estimation chain, in seconds. -/
def claimed_duration_chain_seconds (store_estimate : Option ℤ)
    (probed : Option ℚ) (meta : MetadataFetch) : ℚ :=
  match store_estimate with
  | some e => if e ≠ 0 then (e : ℚ) else claimed_chain_fallback probed meta
  | none => claimed_chain_fallback probed meta

/-! ### Store rows and the job repository
(`src/app/infra/db/supabase_jobs_repo.py`)

A row of the `transcription_jobs` table, with the columns the repository
reads and writes.  `none` stands for SQL `NULL`.  Timestamps are integers
in minutes (`timedelta(minutes=…)` is the only arithmetic the source does
on them). -/

/-- The `status` column (`JobStatus` enum of `src/app/domain/models.py`). -/
inductive JobStatus where
  | queued
  | running
  | done
  | failed
  | cancelled
deriving DecidableEq

/-- One row of the `transcription_jobs` table. -/
structure JobRow where
  id : String
  user_id : String
  object_key : String
  status : JobStatus
  recipe_id : Option String
  priority : ℤ
  locked_at : Option ℤ
  locked_by : Option String
  attempt_count : ℕ
  max_attempts : ℕ
  next_attempt_at : Option ℤ
  error_message : Option String
  created_at : Option ℤ
  started_at : Option ℤ
  finished_at : Option ℤ
  duration_sec : Option ℤ
  estimated_duration_sec : Option ℤ
  stage : Option String
  progress : Option ℚ
  last_heartbeat_at : Option ℤ
  language : Option String
  transcript_text : Option String
  segments_json : Option (List (ℚ × ℚ × String))
  model_version : Option String
deriving DecidableEq

/-- `DEFAULT_MAX_ATTEMPTS = 3` (supabase_jobs_repo.py line 17). -/
def DEFAULT_MAX_ATTEMPTS : ℕ := 3

/-- `_calculate_backoff_minutes(attempt_count) = 2 ** attempt_count`
(supabase_jobs_repo.py lines 81-82). -/
def calculate_backoff_minutes (attempt_count : ℕ) : ℕ := 2 ^ attempt_count

/-! #### `mark_failed` -/

/-- `mark_failed` (lines 278-344) as the transformation its update
dictionary applies to the job's row.  `_get_job_retry_info` reads
`attempt_count` / `max_attempts` from the row itself;
`should_retry = not permanent and attempt_count < max_attempts`;
`_build_failure_update` always overwrites `error_message`, clears the lock
columns and stamps `last_heartbeat_at`, then either requeues with back-off
(`retry_at or now + backoff(attempt_count)`) or finalises to `FAILED`. -/
def mark_failed_update (row : JobRow) (error_message : String)
    (retry_at : Option ℤ) (permanent : Bool) (now : ℤ) : JobRow :=
  let should_retry := !permanent && decide (row.attempt_count < row.max_attempts)
  let base := { row with
    error_message := some error_message,
    locked_at := none,
    locked_by := none,
    last_heartbeat_at := some now }
  if should_retry then
    let calculated_retry := retry_at.getD (now + (calculate_backoff_minutes row.attempt_count : ℤ))
    { base with
      status := JobStatus.queued,
      next_attempt_at := some calculated_retry,
      stage := some "QUEUED",
      progress := some 0 }
  else
    { base with
      status := JobStatus.failed,
      finished_at := some now,
      stage := some "FAILED" }

/-! #### `release_stale_locks` -/

/-- `_release_single_stale_lock` / `_build_stale_release_update` (lines
405-429) as the transformation applied to one stale row: clear the lock
columns; if `attempt_count >= max_attempts` finalise to `FAILED` with
message "Job timed out after max attempts" and `finished_at = now`, else
requeue with `next_attempt_at = now + backoff(attempt_count)` and message
"Lock timed out, requeued for retry".  The update dictionary contains no
`stage`, `progress` or `last_heartbeat_at` key. -/
def stale_release_update (row : JobRow) (now : ℤ) : JobRow :=
  let base := { row with locked_at := none, locked_by := (none : Option String) }
  if row.max_attempts ≤ row.attempt_count then
    { base with
      status := JobStatus.failed,
      error_message := some "Job timed out after max attempts",
      finished_at := some now }
  else
    { base with
      status := JobStatus.queued,
      next_attempt_at := some (now + (calculate_backoff_minutes row.attempt_count : ℤ)),
      error_message := some "Lock timed out, requeued for retry" }

/-! #### `mark_done` -/

/-- `mark_done` (lines 240-276) as the transformation its update dictionary
applies to the job's row: terminal result fields, `status = DONE`,
`stage = DONE`, `progress = 100`, `finished_at = now`,
`last_heartbeat_at = now`, lock columns and `error_message` cleared. -/
def mark_done_update (row : JobRow) (transcript_text : String)
    (segments_json : List (ℚ × ℚ × String)) (language : String)
    (duration_sec : ℤ) (model_version : String) (now : ℤ) : JobRow :=
  { row with
    status := JobStatus.done,
    stage := some "DONE",
    progress := some 100,
    finished_at := some now,
    last_heartbeat_at := some now,
    transcript_text := some transcript_text,
    segments_json := some segments_json,
    language := some language,
    duration_sec := some duration_sec,
    model_version := some model_version,
    locked_at := none,
    locked_by := none,
    error_message := none }

/-! #### `enqueue_transcription_job`

`_build_job_data` (lines 137-160) builds the insert dictionary; its keys
are exactly `id`, `user_id`, `object_key`, `status`, `priority`,
`attempt_count`, `max_attempts`, `created_at`, `estimated_duration_sec`
and, when given, `recipe_id`.  Dictionary keys it could have set but does
not are modelled as `Option` fields equal to `none`. -/

/-- The insert dictionary built by `_build_job_data`.  `stage` and
`progress` are `Option` fields so that their absence from the dictionary
is expressible; the source never adds them. -/
structure JobInsertData where
  id : String
  user_id : String
  object_key : String
  status : JobStatus
  priority : ℤ
  attempt_count : ℕ
  max_attempts : ℕ
  created_at : ℤ
  estimated_duration_sec : ℤ
  recipe_id : Option String
  stage : Option String
  progress : Option ℚ
deriving DecidableEq

/-- `_build_job_data(user_id, object_key, recipe_id, estimated_duration_sec,
priority)` with the generated row id and `now` made explicit. -/
def build_job_data (job_id user_id object_key : String) (recipe_id : Option String)
    (estimated_duration_sec : ℤ) (priority : ℤ) (now : ℤ) : JobInsertData :=
  { id := job_id,
    user_id := user_id,
    object_key := object_key,
    status := JobStatus.queued,
    priority := priority,
    attempt_count := 0,
    max_attempts := DEFAULT_MAX_ATTEMPTS,
    created_at := now,
    estimated_duration_sec := estimated_duration_sec,
    recipe_id := recipe_id,
    stage := none,
    progress := none }

/-- The row the store holds after inserting `_build_job_data`'s dictionary:
columns the dictionary does not mention are `NULL` (the repository ships no
schema defaults for them). -/
def insert_row_of_data (d : JobInsertData) : JobRow :=
  { id := d.id,
    user_id := d.user_id,
    object_key := d.object_key,
    status := d.status,
    recipe_id := d.recipe_id,
    priority := d.priority,
    locked_at := none,
    locked_by := none,
    attempt_count := d.attempt_count,
    max_attempts := d.max_attempts,
    next_attempt_at := none,
    error_message := none,
    created_at := some d.created_at,
    started_at := none,
    finished_at := none,
    duration_sec := none,
    estimated_duration_sec := some d.estimated_duration_sec,
    stage := d.stage,
    progress := d.progress,
    last_heartbeat_at := none,
    language := none,
    transcript_text := none,
    segments_json := none,
    model_version := none }

/-- Result of a repository call that converts a row with `_row_to_job`: the
domain object, or the `TypeError` that Python raises when a keyword
argument is not a field of the target dataclass. -/
inductive PyResult (α : Type) where
  | ok (value : α)
  | typeError (message : String)
deriving DecidableEq

/-- The field names of the `TranscriptionJob` dataclass
(`src/app/domain/models.py` lines 43-88), in declaration order. -/
def transcription_job_field_names : List String :=
  ["id", "user_id", "object_key", "status", "recipe_id", "priority",
   "locked_at", "locked_by", "attempt_count", "max_attempts",
   "next_attempt_at", "error_message", "created_at", "started_at",
   "finished_at", "duration_sec", "language", "transcript_text",
   "segments_json", "model_version"]

/-- The keyword arguments `_row_to_job` (supabase_jobs_repo.py lines 52-78)
passes to the `TranscriptionJob` constructor, in call order. -/
def row_to_job_kwarg_names : List String :=
  ["id", "user_id", "object_key", "status", "recipe_id", "priority",
   "locked_at", "locked_by", "attempt_count", "max_attempts",
   "next_attempt_at", "error_message", "created_at", "started_at",
   "finished_at", "duration_sec", "estimated_duration_sec", "stage",
   "progress", "last_heartbeat_at", "language", "transcript_text",
   "segments_json", "model_version"]

/-- Python raises `TypeError: __init__() got an unexpected keyword argument`
as soon as a dataclass constructor receives a keyword argument that is not
one of its fields. -/
def row_to_job_raises : Bool :=
  !(row_to_job_kwarg_names.all (fun k => transcription_job_field_names.contains k))

/-- `_row_to_job(row)`: constructs a `TranscriptionJob` from the row.  The
call raises `TypeError` whenever it passes a keyword argument that the
dataclass does not define; otherwise the produced job carries the row's
data. -/
def row_to_job (row : JobRow) : PyResult JobRow :=
  if row_to_job_raises then
    PyResult.typeError "__init__() got an unexpected keyword argument"
  else
    PyResult.ok row

/-- `enqueue_transcription_job` (lines 111-160): insert the dictionary
built by `_build_job_data`, then return `_row_to_job` of the inserted row
together with the extended store. -/
def enqueue_transcription_job (store : List JobRow) (job_id user_id object_key : String)
    (recipe_id : Option String) (estimated_duration_sec : ℤ) (priority : ℤ)
    (now : ℤ) : PyResult (JobRow × List JobRow) :=
  let row := insert_row_of_data
    (build_job_data job_id user_id object_key recipe_id estimated_duration_sec priority now)
  match row_to_job row with
  | PyResult.ok job => PyResult.ok (job, store ++ [row])
  | PyResult.typeError m => PyResult.typeError m

/-! #### `update_job_progress` -/

/-- The per-row effect of `update_job_progress`'s update dictionary: only
the arguments actually given become keys. -/
def apply_progress_update (stage : Option String) (progress : Option ℚ)
    (last_heartbeat_at : Option ℤ) (row : JobRow) : JobRow :=
  let row := match stage with
    | some s => { row with stage := some s }
    | none => row
  let row := match progress with
    | some p => { row with progress := some p }
    | none => row
  match last_heartbeat_at with
  | some t => { row with last_heartbeat_at := some t }
  | none => row

/-- `update_job_progress` (lines 485-511): when every optional argument is
omitted the update dictionary is empty and the method returns `True`
before any store round-trip; otherwise it updates the matching row and
returns whether a row matched. -/
def update_job_progress (store : List JobRow) (job_id : String)
    (stage : Option String) (progress : Option ℚ)
    (last_heartbeat_at : Option ℤ) : Bool × List JobRow :=
  if stage.isNone && progress.isNone && last_heartbeat_at.isNone then
    (true, store)
  else
    (store.any (fun r => r.id == job_id),
     store.map (fun r =>
       if r.id = job_id then apply_progress_update stage progress last_heartbeat_at r else r))

/-! ### Quota repository (`SupabaseQuotaRepository`) -/

/-- `QuotaCheck` (src/app/domain/models.py lines 108-114). -/
structure QuotaCheck where
  allowed : Bool
  minutes_remaining : ℤ
  daily_limit : ℤ
  reason : Option String
deriving DecidableEq

/-- One row of the `check_and_reserve_quota` RPC's reply, as consumed by
`_parse_quota_result`. -/
structure QuotaRpcRow where
  allowed : Bool
  minutes_remaining : ℤ
  reason : Option String
deriving DecidableEq

/-- Outcome of the store round-trip inside `check_and_reserve_minutes`:
reply data (possibly empty, i.e. `none`), or a raised `ConnectionError` /
`TimeoutError`. -/
inductive RpcOutcome where
  | ok (data : Option QuotaRpcRow)
  | connectionError
deriving DecidableEq

/-- `_default_quota_check(daily_limit, reason)` (lines 556-562). -/
def default_quota_check (daily_limit : ℤ) (reason : Option String) : QuotaCheck :=
  { allowed := true,
    minutes_remaining := daily_limit,
    daily_limit := daily_limit,
    reason := reason }

/-- `_parse_quota_result(data, daily_limit)` (lines 543-554). -/
def parse_quota_result (data : Option QuotaRpcRow) (daily_limit : ℤ) : QuotaCheck :=
  match data with
  | none => default_quota_check daily_limit none
  | some parsed =>
    { allowed := parsed.allowed,
      minutes_remaining := parsed.minutes_remaining,
      daily_limit := daily_limit,
      reason := parsed.reason }

/-- `check_and_reserve_minutes` (lines 520-541): parse the RPC reply, and
on `ConnectionError` / `TimeoutError` return the conservative default with
the degradation reason instead of raising. -/
def check_and_reserve_minutes (rpc : RpcOutcome) (daily_limit : ℤ) : QuotaCheck :=
  match rpc with
  | RpcOutcome.ok data => parse_quota_result data daily_limit
  | RpcOutcome.connectionError =>
    default_quota_check daily_limit (some "Quota check failed, allowing by default")

/-! ### Sample rows used by concrete counterexamples and witnesses -/

/-- A leased (`RUNNING`) row mid-transcription: attempt 1 of 3, locked at
time 0, stage `TRANSCRIBING`, progress 50. -/
def sampleRunningRow : JobRow :=
  { id := "j1",
    user_id := "u1",
    object_key := "users/u1/media/a.mp3",
    status := JobStatus.running,
    recipe_id := none,
    priority := 0,
    locked_at := some 0,
    locked_by := some "worker-1",
    attempt_count := 1,
    max_attempts := 3,
    next_attempt_at := none,
    error_message := none,
    created_at := some 0,
    started_at := some 0,
    finished_at := none,
    duration_sec := none,
    estimated_duration_sec := none,
    stage := some "TRANSCRIBING",
    progress := some 50,
    last_heartbeat_at := some 0,
    language := none,
    transcript_text := none,
    segments_json := none,
    model_version := none }

/-! ### Claim C1 — object-key validation -/

/-- Claim C1, counterexample.  The claim says the worker's validation
accepts `object_key` only if (among other conditions) it begins with
`users/{user_id}/` for the job's user.  For a job whose `user_id` is `u1`,
the key `media/file.mp3` does not begin with `users/u1/`, yet
`_validate_object_key` accepts it: the source checks no user prefix at
all. -/
theorem validate_object_key_no_user_scope :
    validate_object_key "media/file.mp3" = KeyValidation.accepted "media/file.mp3" ∧
    (("users/u1/".data).isPrefixOf ("media/file.mp3".data)) = false := by
  decide

/-- Claim C1, amended.  For every leased job, the worker's object-key
validation accepts `object_key` if and only if it is not empty or
whitespace-only, its final path component is non-empty and does not start
with `.`, and it contains no `..`; no `users/{user_id}/` prefix condition
is checked.  Any violation raises `InvalidObjectKeyError`, which
`_process_job` converts into `mark_failed` with `permanent=true` (no
retry). -/
theorem validate_object_key_spec (object_key : String) :
    ((validate_object_key object_key).isAccepted = true ↔
      (object_key.data.all (fun c => c.isWhitespace) = false ∧
        posixPathName object_key.data ≠ [] ∧
        (posixPathName object_key.data).head? ≠ some '.' ∧
        hasDotDot object_key.data = false)) ∧
    (∀ reason, process_job_dispatch (AttemptOutcome.invalidObjectKey reason) =
      JobOutcomeAct.markFailed true reason) := by
  constructor
  · unfold validate_object_key
    by_cases h1 : (object_key.data.all (fun c => c.isWhitespace)) = true
    · rw [if_pos h1]
      simp [KeyValidation.isAccepted, h1]
    · rw [if_neg h1]
      by_cases h2 : (posixPathName object_key.data).isEmpty = true
      · rw [if_pos h2]
        simp [KeyValidation.isAccepted, List.isEmpty_iff.mp h2]
      · rw [if_neg h2]
        by_cases h3 : (posixPathName object_key.data).head? = some '.'
        · rw [if_pos h3]
          simp [KeyValidation.isAccepted, h3]
        · rw [if_neg h3]
          by_cases h4 : hasDotDot object_key.data = true
          · rw [if_pos h4]
            simp [KeyValidation.isAccepted, h4]
          · rw [if_neg h4]
            have e1 : object_key.data.all (fun c => c.isWhitespace) = false := by
              simpa using h1
            have e2 : posixPathName object_key.data ≠ [] := by
              simpa [List.isEmpty_iff] using h2
            have e4 : hasDotDot object_key.data = false := by
              simpa using h4
            simp [KeyValidation.isAccepted, e1, e2, e4, h3]
  · intro reason
    rfl

/-! ### Claim C2 — per-job error propagation -/

/-- Claim C2, counterexample.  The claim says every error raised during an
attempt, including any unexpected error kind, is converted into exactly one
`mark_failed` call (`permanent=false` for unexpected errors).  But
`_process_job` has no catch-all clause: an exception outside the four
handled classes escapes the per-job block instead of producing
`mark_failed(permanent=false, …)`. -/
theorem process_job_dispatch_unexpected_escapes :
    process_job_dispatch (AttemptOutcome.unexpected "boom") =
      JobOutcomeAct.escaped "boom" ∧
    process_job_dispatch (AttemptOutcome.unexpected "boom") ≠
      JobOutcomeAct.markFailed false "boom" := by
  decide

/-- Claim C2, amended.  Each of the error kinds `_process_job` anticipates
is caught and converted into exactly one `mark_failed` call — permanent for
invalid media, invalid object keys and non-retryable processing errors,
retryable for retryable processing errors and storage download/timeout
errors — but an exception of any other class is not caught and escapes the
per-job block. -/
theorem process_job_dispatch_spec (m : String) (r : Bool) :
    process_job_dispatch (AttemptOutcome.invalidMedia m) = JobOutcomeAct.markFailed true m ∧
    process_job_dispatch (AttemptOutcome.invalidObjectKey m) = JobOutcomeAct.markFailed true m ∧
    process_job_dispatch (AttemptOutcome.processing m r) = JobOutcomeAct.markFailed (!r) m ∧
    process_job_dispatch (AttemptOutcome.storageDownload m) = JobOutcomeAct.markFailed false m ∧
    process_job_dispatch (AttemptOutcome.storageTimeout m) = JobOutcomeAct.markFailed false m ∧
    process_job_dispatch (AttemptOutcome.unexpected m) = JobOutcomeAct.escaped m := by
  cases r <;> simp [process_job_dispatch]

/-! ### Claim C3 — quota reconciliation arithmetic -/

/-- Claim C3, counterexample.  The claim says the reconciled
`actual_minutes` is `ceil(actual_duration_sec / 60)`, so an exact multiple
of 60 seconds reconciles to exactly `duration / 60` minutes.  The source
computes `int(actual_duration_sec / 60) + 1`: for 240 seconds this yields
5, not `240 / 60 = 4`. -/
theorem reconcile_actual_minutes_240 :
    reconcile_actual_minutes 240 = 5 ∧ (240 : ℚ) = 60 * 4 ∧ (5 : ℤ) ≠ 4 := by
  refine ⟨?_, by norm_num, by decide⟩
  unfold reconcile_actual_minutes pyInt
  norm_num

/-- Claim C3, amended.  After a successful transcription the worker
reconciles quota with `actual_minutes = int(actual_duration_sec / 60) + 1`
(truncating division plus one).  For a non-negative duration this equals
`⌊duration / 60⌋ + 1`; it agrees with `ceil(duration / 60)` exactly when
the duration is not a whole multiple of 60 seconds (in particular 248
seconds reconciles to 5 minutes), while an exact multiple `60 * k`
reconciles to `k + 1`, one more than `ceil`. -/
theorem reconcile_actual_minutes_spec (d : ℚ) (hd : 0 ≤ d) :
    reconcile_actual_minutes d = ⌊d / 60⌋ + 1 ∧
    (⌊d / 60⌋ ≠ ⌈d / 60⌉ → reconcile_actual_minutes d = ⌈d / 60⌉) := by
  have hq : (0 : ℚ) ≤ d / 60 := by positivity
  have hfloor : reconcile_actual_minutes d = ⌊d / 60⌋ + 1 := by
    unfold reconcile_actual_minutes pyInt
    rw [if_pos hq]
  refine ⟨hfloor, fun hne => ?_⟩
  have h1 : ⌊d / 60⌋ ≤ ⌈d / 60⌉ := Int.floor_le_ceil _
  have h2 : ⌈d / 60⌉ ≤ ⌊d / 60⌋ + 1 := Int.ceil_le_floor_add_one _
  omega

/-- Claim C3, witness: the amended statement applied at 248 seconds, where
`⌊248/60⌋ = 4 ≠ 5 = ⌈248/60⌉`, so the reconciled value is
`⌈248/60⌉ = 5`. -/
theorem reconcile_actual_minutes_spec_witness :
    reconcile_actual_minutes 248 = ⌊(248 : ℚ) / 60⌋ + 1 ∧
    (⌊(248 : ℚ) / 60⌋ ≠ ⌈(248 : ℚ) / 60⌉ → reconcile_actual_minutes 248 = ⌈(248 : ℚ) / 60⌉) :=
  reconcile_actual_minutes_spec 248 (by norm_num)

/-! ### Claim C4 — stale-lock release versus `mark_failed` -/

/-- Claim C4, counterexample.  For the stale row `sampleRunningRow`
(`RUNNING`, `locked_at = 0`, so stale at `now = 100` with a 30-minute TTL),
the claim says `release_stale_locks` produces exactly the `stage`,
`progress` and `error_message` that `mark_failed` with message
"lock timed out" would.  It does not: the stale release leaves `stage`
(`TRANSCRIBING`) and `progress` (50) untouched where `mark_failed` would
write `QUEUED` / 0, and it writes its own message
"Lock timed out, requeued for retry" instead of "lock timed out". -/
theorem stale_release_differs_from_mark_failed :
    sampleRunningRow.status = JobStatus.running ∧
    sampleRunningRow.locked_at = some 0 ∧
    (stale_release_update sampleRunningRow 100).stage ≠
      (mark_failed_update sampleRunningRow "lock timed out" none false 100).stage ∧
    (stale_release_update sampleRunningRow 100).error_message ≠
      (mark_failed_update sampleRunningRow "lock timed out" none false 100).error_message := by
  refine ⟨rfl, rfl, ?_, ?_⟩ <;> decide

/-- Claim C4, amended.  For every stale row (`status = RUNNING`,
`locked_at` older than the TTL), `release_stale_locks` agrees with
`mark_failed` (message "lock timed out", the row's current
`attempt_count`) on `status`, `next_attempt_at`, `finished_at` and the
cleared lock columns, but it leaves `stage`, `progress` and
`last_heartbeat_at` unchanged and writes its own error messages
("Job timed out after max attempts" when the budget is exhausted,
"Lock timed out, requeued for retry" otherwise). -/
theorem stale_release_vs_mark_failed_spec (row : JobRow) (now ttl t : ℤ)
    (hrun : row.status = JobStatus.running) (hlock : row.locked_at = some t)
    (hstale : t < now - ttl) :
    (stale_release_update row now).status =
      (mark_failed_update row "lock timed out" none false now).status ∧
    (stale_release_update row now).next_attempt_at =
      (mark_failed_update row "lock timed out" none false now).next_attempt_at ∧
    (stale_release_update row now).finished_at =
      (mark_failed_update row "lock timed out" none false now).finished_at ∧
    (stale_release_update row now).locked_at = none ∧
    (stale_release_update row now).locked_by = none ∧
    (stale_release_update row now).stage = row.stage ∧
    (stale_release_update row now).progress = row.progress ∧
    (stale_release_update row now).last_heartbeat_at = row.last_heartbeat_at ∧
    (stale_release_update row now).error_message =
      some (if row.max_attempts ≤ row.attempt_count then
        "Job timed out after max attempts" else "Lock timed out, requeued for retry") := by
  unfold stale_release_update mark_failed_update
  by_cases h : row.max_attempts ≤ row.attempt_count
  · simp [h, Nat.not_lt.mpr h]
  · simp [h, Nat.not_le.mp h]

/-- Claim C4, witness: the amended statement applied to the concrete stale
row `sampleRunningRow` at `now = 100`, `ttl = 30`, `t = 0`. -/
theorem stale_release_vs_mark_failed_spec_witness :
    (stale_release_update sampleRunningRow 100).status =
      (mark_failed_update sampleRunningRow "lock timed out" none false 100).status ∧
    (stale_release_update sampleRunningRow 100).next_attempt_at =
      (mark_failed_update sampleRunningRow "lock timed out" none false 100).next_attempt_at ∧
    (stale_release_update sampleRunningRow 100).finished_at =
      (mark_failed_update sampleRunningRow "lock timed out" none false 100).finished_at ∧
    (stale_release_update sampleRunningRow 100).locked_at = none ∧
    (stale_release_update sampleRunningRow 100).locked_by = none ∧
    (stale_release_update sampleRunningRow 100).stage = sampleRunningRow.stage ∧
    (stale_release_update sampleRunningRow 100).progress = sampleRunningRow.progress ∧
    (stale_release_update sampleRunningRow 100).last_heartbeat_at =
      sampleRunningRow.last_heartbeat_at ∧
    (stale_release_update sampleRunningRow 100).error_message =
      some (if sampleRunningRow.max_attempts ≤ sampleRunningRow.attempt_count then
        "Job timed out after max attempts" else "Lock timed out, requeued for retry") :=
  stale_release_vs_mark_failed_spec sampleRunningRow 100 30 0 rfl rfl (by decide)

/-! ### Claim C5 — `enqueue_transcription_job` -/

/-- Claim C5, evaluated at the failing input
`enqueue_transcription_job(user_id="u1",
object_key="users/u1/media/a.mp3", estimated_duration_sec=300,
priority=0)` at time 17 on an empty store.  The insert dictionary does
carry `status = QUEUED`, `attempt_count = 0`, `max_attempts = 3` and
`created_at = now`, but contains no `stage` or `progress` key, and the
method then fails to return the created job: `_row_to_job` passes the
keyword arguments `estimated_duration_sec`, `stage`, `progress` and
`last_heartbeat_at`, which the `TranscriptionJob` dataclass does not
define, so the constructor call raises `TypeError`. -/
theorem enqueue_insert_and_return :
    (build_job_data "j1" "u1" "users/u1/media/a.mp3" none 300 0 17).status = JobStatus.queued ∧
    (build_job_data "j1" "u1" "users/u1/media/a.mp3" none 300 0 17).attempt_count = 0 ∧
    (build_job_data "j1" "u1" "users/u1/media/a.mp3" none 300 0 17).max_attempts = 3 ∧
    (build_job_data "j1" "u1" "users/u1/media/a.mp3" none 300 0 17).created_at = 17 ∧
    (build_job_data "j1" "u1" "users/u1/media/a.mp3" none 300 0 17).stage = none ∧
    (build_job_data "j1" "u1" "users/u1/media/a.mp3" none 300 0 17).progress = none ∧
    row_to_job_raises = true ∧
    enqueue_transcription_job [] "j1" "u1" "users/u1/media/a.mp3" none 300 0 17 =
      PyResult.typeError "__init__() got an unexpected keyword argument" := by
  refine ⟨rfl, rfl, rfl, rfl, rfl, rfl, by decide, ?_⟩
  have h : row_to_job_raises = true := by decide
  simp [enqueue_transcription_job, row_to_job, h]

/-! ### Claim C6 — `mark_failed` retry policy -/

/-- Claim C6, confirmed.  For every existing job row, `mark_failed` (with
the default `retry_at = None`) produces `status = FAILED`,
`stage = FAILED`, `finished_at = now` if and only if `permanent` is true
or `attempt_count ≥ max_attempts` — so at `attempt_count = max_attempts` a
retryable failure yields `FAILED`, not `QUEUED` — and otherwise sets
`status = QUEUED`, `stage = QUEUED`, `progress = 0`, clears the lock
columns and sets `next_attempt_at = now + 2 ^ attempt_count` minutes;
`error_message` is always overwritten with the given message. -/
theorem mark_failed_spec (row : JobRow) (msg : String) (permanent : Bool) (now : ℤ) :
    (((mark_failed_update row msg none permanent now).status = JobStatus.failed ∧
      (mark_failed_update row msg none permanent now).stage = some "FAILED" ∧
      (mark_failed_update row msg none permanent now).finished_at = some now) ↔
      (permanent = true ∨ row.max_attempts ≤ row.attempt_count)) ∧
    (permanent = false → row.attempt_count < row.max_attempts →
      (mark_failed_update row msg none permanent now).status = JobStatus.queued ∧
      (mark_failed_update row msg none permanent now).stage = some "QUEUED" ∧
      (mark_failed_update row msg none permanent now).progress = some 0 ∧
      (mark_failed_update row msg none permanent now).locked_at = none ∧
      (mark_failed_update row msg none permanent now).locked_by = none ∧
      (mark_failed_update row msg none permanent now).next_attempt_at =
        some (now + (2 : ℤ) ^ row.attempt_count)) ∧
    (mark_failed_update row msg none permanent now).error_message = some msg := by
  unfold mark_failed_update calculate_backoff_minutes
  cases permanent
  · by_cases h : row.attempt_count < row.max_attempts
    · simp [h, Nat.not_le.mpr h]
    · simp [h, Nat.not_lt.mp h]
  · simp

/-- Claim C6, witness: the confirmed statement applied to the concrete row
`sampleRunningRow` (attempt 1 of 3) with a retryable failure at
`now = 10`. -/
theorem mark_failed_spec_witness :
    (((mark_failed_update sampleRunningRow "boom" none false 10).status = JobStatus.failed ∧
      (mark_failed_update sampleRunningRow "boom" none false 10).stage = some "FAILED" ∧
      (mark_failed_update sampleRunningRow "boom" none false 10).finished_at = some 10) ↔
      (false = true ∨ sampleRunningRow.max_attempts ≤ sampleRunningRow.attempt_count)) ∧
    (false = false → sampleRunningRow.attempt_count < sampleRunningRow.max_attempts →
      (mark_failed_update sampleRunningRow "boom" none false 10).status = JobStatus.queued ∧
      (mark_failed_update sampleRunningRow "boom" none false 10).stage = some "QUEUED" ∧
      (mark_failed_update sampleRunningRow "boom" none false 10).progress = some 0 ∧
      (mark_failed_update sampleRunningRow "boom" none false 10).locked_at = none ∧
      (mark_failed_update sampleRunningRow "boom" none false 10).locked_by = none ∧
      (mark_failed_update sampleRunningRow "boom" none false 10).next_attempt_at =
        some (10 + (2 : ℤ) ^ sampleRunningRow.attempt_count)) ∧
    (mark_failed_update sampleRunningRow "boom" none false 10).error_message = some "boom" :=
  mark_failed_spec sampleRunningRow "boom" false 10

/-! ### Claim C7 — `mark_done` idempotence -/

/-- Claim C7, counterexample.  The claim says re-applying `mark_done` with
the same terminal result leaves every observable field, including
`finished_at`, equal to its value after the first application.  But
`mark_done` stamps `finished_at = now` unconditionally, so a second
application at a later time (here time 1 after time 0) moves
`finished_at`. -/
theorem mark_done_restamps_finished_at :
    (mark_done_update (mark_done_update sampleRunningRow "text" [] "en" 248 "v1" 0)
        "text" [] "en" 248 "v1" 1).finished_at ≠
      (mark_done_update sampleRunningRow "text" [] "en" 248 "v1" 0).finished_at := by
  decide

/-- Claim C7, amended.  Re-applying `mark_done` with the same job and the
same terminal result changes only the timestamps: the second application
at time `now2` equals the first result with `finished_at` and
`last_heartbeat_at` restamped to `now2`; in particular re-applying at the
same timestamp leaves the row exactly unchanged. -/
theorem mark_done_idempotent_up_to_timestamps (row : JobRow) (text : String)
    (segments : List (ℚ × ℚ × String)) (lang : String) (dur : ℤ) (ver : String)
    (now1 now2 : ℤ) :
    mark_done_update (mark_done_update row text segments lang dur ver now1)
        text segments lang dur ver now2 =
      { mark_done_update row text segments lang dur ver now1 with
        finished_at := some now2, last_heartbeat_at := some now2 } ∧
    mark_done_update (mark_done_update row text segments lang dur ver now1)
        text segments lang dur ver now1 =
      mark_done_update row text segments lang dur ver now1 := by
  exact ⟨rfl, rfl⟩

/-! ### Claim C8 — duration estimation for quota versus progress -/

/-- Claim C8, counterexample.  The claim says that for quota purposes a
non-zero stored `estimated_duration_sec` takes precedence.  For a job with
`estimated_duration_sec = 600` (10 minutes) whose object is 2 MB, the
claimed chain yields 600 seconds, but the quota estimate the worker
actually passes to reconciliation is `_estimate_duration_minutes`'s
content-length value: 2 minutes (120 seconds), ignoring the stored
estimate entirely. -/
theorem quota_estimate_ignores_store_estimate :
    estimate_duration_minutes (MetadataFetch.ok (2 * 1048576)) = 2 ∧
    claimed_duration_chain_seconds (some 600) none (MetadataFetch.ok (2 * 1048576)) = 600 ∧
    (2 : ℤ) * 60 ≠ 600 := by
  refine ⟨?_, by norm_num [claimed_duration_chain_seconds], by decide⟩
  unfold estimate_duration_minutes pyInt BYTES_PER_MB
  norm_num

/-- Claim C8, amended.  The claimed chain — non-zero stored
`estimated_duration_sec`, else the probed media duration, else 1 minute
per MB of content length (at least 1), else 5 minutes — is exactly how
`_determine_total_duration_seconds` computes the total used for progress
reporting (given a non-negative stored estimate and a probe that does not
return exactly 0); the quota estimate is `_estimate_duration_minutes`
alone, which uses only content length (or the 5-minute default). -/
theorem duration_chain_is_progress_total (est : Option ℤ) (probed : Option ℚ)
    (meta : MetadataFetch) (hest : ∀ e ∈ est, 0 ≤ e) (hprobe : probed ≠ some 0) :
    determine_total_duration_seconds est probed (estimate_duration_minutes meta) =
      claimed_duration_chain_seconds est probed meta := by
  have hfb : determine_fallback_seconds probed (estimate_duration_minutes meta) =
      claimed_chain_fallback probed meta := by
    cases probed with
    | some d =>
      have hd : d ≠ 0 := fun h => hprobe (by rw [h])
      simp [determine_fallback_seconds, claimed_chain_fallback, hd]
    | none =>
      cases meta with
      | ok cl =>
        simp only [determine_fallback_seconds, claimed_chain_fallback,
          estimate_duration_minutes]
        rw [max_comm (max 1 (pyInt ((cl : ℚ) / (BYTES_PER_MB : ℚ)))) 1,
          max_eq_right (le_max_left 1 (pyInt ((cl : ℚ) / (BYTES_PER_MB : ℚ))))]
      | err =>
        norm_num [determine_fallback_seconds, claimed_chain_fallback,
          estimate_duration_minutes, DEFAULT_ESTIMATED_MINUTES]
  cases est with
  | none =>
    simpa [determine_total_duration_seconds, claimed_duration_chain_seconds] using hfb
  | some e =>
    have he : 0 ≤ e := hest e (by simp)
    rcases he.lt_or_eq with hpos | hzero
    · simp [determine_total_duration_seconds, claimed_duration_chain_seconds,
        hpos, hpos.ne']
    · simp [determine_total_duration_seconds, claimed_duration_chain_seconds,
        ← hzero, hfb]

/-- Claim C8, witness: the amended statement applied at a stored estimate
of 600 seconds, no probe, and a 2 MB object. -/
theorem duration_chain_is_progress_total_witness :
    determine_total_duration_seconds (some 600) none
        (estimate_duration_minutes (MetadataFetch.ok (2 * 1048576))) =
      claimed_duration_chain_seconds (some 600) none (MetadataFetch.ok (2 * 1048576)) :=
  duration_chain_is_progress_total (some 600) none (MetadataFetch.ok (2 * 1048576))
    (by intro e he; simp at he; omega) (by simp)

/-! ### Claim C9 — quota reservation degrades open on store failure -/

/-- Claim C9, confirmed.  When the store round-trip inside
`check_and_reserve_minutes` raises a connection or timeout error, the
method does not raise: it returns a result with `allowed = true` and the
non-null reason "Quota check failed, allowing by default". -/
theorem check_and_reserve_minutes_degrades_open (daily_limit : ℤ) :
    (check_and_reserve_minutes RpcOutcome.connectionError daily_limit).allowed = true ∧
    (check_and_reserve_minutes RpcOutcome.connectionError daily_limit).reason =
      some "Quota check failed, allowing by default" := by
  exact ⟨rfl, rfl⟩

/-! ### Claim C10 — empty `update_job_progress` is a no-op -/

/-- Claim C10, confirmed.  Calling `update_job_progress` with `stage`,
`progress` and `last_heartbeat_at` all omitted returns `True` before any
store round-trip, leaving the store — every field of every job —
unchanged. -/
theorem update_job_progress_noop (store : List JobRow) (job_id : String) :
    update_job_progress store job_id none none none = (true, store) := by
  rfl
